import Mathlib

/-!
# Sensor-processing pipeline of the embedded-systems demonstration programs

A shallow embedding of the functions of `src/4_practical_tasks.c` and
`src/05_functions_modularity.c` that make up the telemetry pipeline, and the
properties of them that the specification states.

Conventions of the embedding:

* `uint8_t` / `uint16_t` values are `Nat`, `int8_t` / `int16_t` values are `Int`;
  none of the modelled functions performs integer arithmetic that can wrap.
* `float` / `double` values are exact rationals (`ℚ`): every finite floating
  point value is a rational, and the properties are stated for exact arithmetic.
* A C conversion from a floating value to a signed integer type truncates
  toward zero and is undefined when the truncated value is not representable;
  it is modelled by `float_to_int`, which returns `none` in that case.
* `printf` output is modelled as a list of structured `Event`s.
-/

namespace Embedded

/-! ## `src/4_practical_tasks.c` -/

/-- The `DeviceState` enumeration. -/
inductive DeviceState where
  | STATE_OFF
  | STATE_ON
  | STATE_BLINKING
  | STATE_ERROR
  deriving DecidableEq, Repr

/-- The `DroneTelemetry` structure. -/
structure DroneTelemetry where
  battery_percent : Nat
  altitude : Int
  signal_strength : Nat
  motor_state : DeviceState
  deriving DecidableEq, Repr

/-- The function `update_device_state`: the telemetry record after the call. -/
def update_device_state (telem : DroneTelemetry) : DroneTelemetry :=
  if telem.battery_percent < 10 then
    { telem with motor_state := DeviceState.STATE_ERROR }
  else if telem.battery_percent < 30 then
    { telem with motor_state := DeviceState.STATE_BLINKING }
  else if telem.signal_strength > 50 then
    { telem with motor_state := DeviceState.STATE_ON }
  else
    { telem with motor_state := DeviceState.STATE_OFF }

/-! ## Floating point to integer conversion -/

/-- Truncation toward zero of an exact value. -/
def trunc (x : ℚ) : Int :=
  if 0 ≤ x then ⌊x⌋ else ⌈x⌉

/-- The C conversion `(intN_t)x` of a floating value to a signed integer of
`bits` bits: the truncation toward zero when it is representable, undefined
(`none`) otherwise. -/
def float_to_int (bits : Nat) (x : ℚ) : Option Int :=
  if -(2 : Int) ^ (bits - 1) ≤ trunc x ∧ trunc x < (2 : Int) ^ (bits - 1) then
    some (trunc x)
  else
    none

/-! ## `src/05_functions_modularity.c`: safety checks -/

/-- One line of `printf` output of the safety check functions. -/
inductive Event where
  | range_error (name : String) (value min max : Int)
  | validation_start
  | validation_ok
  | validation_errors (errors : Int)
  deriving DecidableEq, Repr

/-- The function `check_range`: the returned `int8_t` and the output printed. -/
def check_range (value min max : Int) (name : String) : Int × List Event :=
  if value < min ∨ value > max then
    (-1, [Event.range_error name value min max])
  else
    (0, [])

/-- The function `validate_drone_state`: the returned `int8_t` and the output
printed, or `none` when the conversion `(int16_t)temp` is undefined. -/
def validate_drone_state (altitude : Int) (battery : Nat) (temp : ℚ) :
    Option (Int × List Event) :=
  let errors : Int := 0
  let out := [Event.validation_start]
  let r1 := check_range altitude 0 500 "Altitude (m)"
  let errors := if r1.1 ≠ 0 then errors + 1 else errors
  let out := out ++ r1.2
  let r2 := check_range (battery : Int) 0 100 "Battery (%)"
  let errors := if r2.1 ≠ 0 then errors + 1 else errors
  let out := out ++ r2.2
  match float_to_int 16 temp with
  | none => none
  | some t =>
    let r3 := check_range t (-20) 60 "Temperature (°C)"
    let errors := if r3.1 ≠ 0 then errors + 1 else errors
    let out := out ++ r3.2
    if errors = 0 then
      some (0, out ++ [Event.validation_ok])
    else
      some (-1, out ++ [Event.validation_errors errors])

/-! ## `src/4_practical_tasks.c`: ADC reading -/

/-- The `ADCReading` structure. -/
structure ADCReading where
  raw_adc : Nat
  voltage : ℚ
  temperature : Int
  deriving DecidableEq, Repr

/-- The function `read_ADC_channel`, or `none` when the conversion to `int8_t`
of the temperature is undefined. -/
def read_ADC_channel (raw_value : Nat) : Option ADCReading :=
  let voltage : ℚ := ((raw_value : ℚ) / 4095.0) * 3.3
  match float_to_int 8 ((-40) + (voltage / 3.3) * 125) with
  | none => none
  | some t => some { raw_adc := raw_value, voltage := voltage, temperature := t }

/-! ## `src/05_functions_modularity.c`: sensor driver -/

/-- The function `adc_to_voltage`, in exact arithmetic: the division and the
multiplication are exact, and the rounding of the returned value to `float` is
left out. -/
def adc_to_voltage (raw_value : Nat) : ℚ :=
  ((raw_value : ℚ) / 4095.0) * 3.3

/-- The function `voltage_to_temperature`, in exact arithmetic: the returned
`int16_t`, or `none` when the conversion to `int16_t` is undefined. The
subtraction and the multiplication are exact, where the code rounds each to
`double`. -/
def voltage_to_temperature (voltage : ℚ) : Option Int :=
  float_to_int 16 ((voltage - 0.5) * 100)

/-! ## `src/05_functions_modularity.c`: low-pass filter -/

/-- The `LowPassFilter` structure. -/
structure LowPassFilter where
  alpha : ℚ
  last_output : ℚ
  deriving DecidableEq, Repr

/-- The function `filter_init`: the filter it leaves behind. -/
def filter_init (alpha : ℚ) : LowPassFilter :=
  { alpha := alpha, last_output := 0.0 }

/-- The function `filter_apply`: the filter after the call and the value
returned. -/
def filter_apply (filter : LowPassFilter) (input : ℚ) : LowPassFilter × ℚ :=
  let filter' : LowPassFilter :=
    { filter with
      last_output := (filter.alpha * input) + ((1.0 - filter.alpha) * filter.last_output) }
  (filter', filter'.last_output)

/-- The filter after `n` successive calls of `filter_apply` with one and the
same input. -/
def filter_repeat (filter : LowPassFilter) (input : ℚ) : Nat → LowPassFilter
  | 0 => filter
  | n + 1 => (filter_apply (filter_repeat filter input n) input).1

/-- The filtering loop of `main`: `filter_apply` called on each reading in
turn; the filter after the loop and the values returned, in order. -/
def filter_run (filter : LowPassFilter) : List ℚ → LowPassFilter × List ℚ
  | [] => (filter, [])
  | x :: xs =>
    let r := filter_apply filter x
    let rest := filter_run r.1 xs
    (rest.1, r.2 :: rest.2)

/-- The readings `noisy_readings` of `main`. -/
def noisy_readings : List ℚ := [25, 28, 26, 24, 27, 25, 26]

/-! ## `src/05_functions_modularity.c`: motor control -/

/-- One piece of `printf` output of `motor_ramp_speed`: the heading, one speed,
or the closing line break. -/
inductive MotorEvent where
  | ramp_header (motor_id target_speed ramp_steps : Nat)
  | speed (current_speed : Nat)
  | newline
  deriving DecidableEq, Repr

/-- The outcome of running `motor_ramp_speed`: it returns after printing `out`,
it divides by zero, or the loop is still running when the fuel is used up. -/
inductive RampResult where
  | finished (out : List MotorEvent)
  | division_by_zero
  | out_of_fuel
  deriving DecidableEq, Repr

/-- The `for` loop of `motor_ramp_speed`, with the 8-bit counter `i` and the
output printed so far; one unit of fuel per evaluation of the loop condition.
The product `target_speed * i` is computed in `int`, which two 8-bit operands
cannot overflow; the quotient is converted to `uint8_t`, as is `i + 1`. -/
def motor_ramp_loop (target_speed ramp_steps : Nat) :
    Nat → Nat → List MotorEvent → RampResult
  | 0, _, _ => RampResult.out_of_fuel
  | fuel + 1, i, out =>
    if i ≤ ramp_steps then
      if ramp_steps = 0 then
        RampResult.division_by_zero
      else
        let current_speed := ((target_speed * i) / ramp_steps) % 256
        motor_ramp_loop target_speed ramp_steps fuel ((i + 1) % 256)
          (out ++ [MotorEvent.speed current_speed])
    else
      RampResult.finished out

/-- The function `motor_ramp_speed`, run with the given fuel. -/
def motor_ramp_speed (motor_id target_speed ramp_steps fuel : Nat) : RampResult :=
  match motor_ramp_loop target_speed ramp_steps fuel 0
      [MotorEvent.ramp_header motor_id target_speed ramp_steps] with
  | RampResult.finished out => RampResult.finished (out ++ [MotorEvent.newline])
  | RampResult.division_by_zero => RampResult.division_by_zero
  | RampResult.out_of_fuel => RampResult.out_of_fuel

/-! ## Rounding to decimal places -/

/-- The value `x` rounded to `d` decimal places, to the nearest (a tie goes up). -/
def round_decimals (d : Nat) (x : ℚ) : ℚ :=
  (round (x * 10 ^ d) : ℚ) / 10 ^ d

/-! ## Helper lemmas on truncation -/

theorem trunc_le_iff (x : ℚ) (n : Int) (hn : 0 ≤ n) : trunc x ≤ n ↔ x < n + 1 := by
  unfold trunc
  split
  · rw [← Int.lt_add_one_iff, Int.floor_lt]
    push_cast
    rfl
  · rename_i hx
    have hx0 : x < 0 := not_le.mp hx
    have hn0 : (0 : ℚ) ≤ n := by exact_mod_cast hn
    constructor
    · intro _
      linarith
    · intro _
      rw [Int.ceil_le]
      linarith

theorem le_trunc_iff (x : ℚ) (n : Int) (hn : n ≤ 0) : n ≤ trunc x ↔ (n : ℚ) - 1 < x := by
  unfold trunc
  have hn0 : (n : ℚ) ≤ 0 := by exact_mod_cast hn
  split
  · rename_i hx
    constructor
    · intro _
      linarith
    · intro _
      exact le_trans hn (Int.floor_nonneg.mpr hx)
  · rw [← Int.sub_one_lt_iff, Int.lt_ceil]
    push_cast
    rfl

theorem float_to_int_16 (x : ℚ) (hlo : -32769 < x) (hhi : x < 32768) :
    float_to_int 16 x = some (trunc x) := by
  have h1 : (-32768 : Int) ≤ trunc x := by
    rw [le_trunc_iff x (-32768) (by norm_num)]
    push_cast
    linarith
  have h2 : trunc x ≤ (32767 : Int) := by
    rw [trunc_le_iff x 32767 (by norm_num)]
    push_cast
    linarith
  unfold float_to_int
  rw [if_pos]
  constructor
  · norm_num
    exact h1
  · norm_num
    omega

theorem trunc_eq_of_nonneg (x : ℚ) (n : Int) (h0 : 0 ≤ x) (h1 : (n : ℚ) ≤ x)
    (h2 : x < n + 1) : trunc x = n := by
  unfold trunc
  rw [if_pos h0, Int.floor_eq_iff]
  exact ⟨h1, h2⟩

theorem trunc_eq_of_neg (x : ℚ) (n : Int) (h0 : x < 0) (h1 : (n : ℚ) - 1 < x)
    (h2 : x ≤ n) : trunc x = n := by
  unfold trunc
  rw [if_neg (not_le.mpr h0), Int.ceil_eq_iff]
  exact ⟨h1, h2⟩

theorem float_to_int_8 (x : ℚ) (hlo : -129 < x) (hhi : x < 128) :
    float_to_int 8 x = some (trunc x) := by
  have h1 : (-128 : Int) ≤ trunc x := by
    rw [le_trunc_iff x (-128) (by norm_num)]
    push_cast
    linarith
  have h2 : trunc x ≤ (127 : Int) := by
    rw [trunc_le_iff x 127 (by norm_num)]
    push_cast
    linarith
  unfold float_to_int
  rw [if_pos]
  constructor
  · norm_num
    exact h1
  · norm_num
    omega

theorem trunc_intCast (n : Int) : trunc (n : ℚ) = n := by
  unfold trunc
  split
  · exact Int.floor_intCast n
  · exact Int.ceil_intCast n

theorem abs_trunc_sub_lt_one (x : ℚ) : |(trunc x : ℚ) - x| < 1 := by
  unfold trunc
  rw [abs_lt]
  split
  · have ha := Int.sub_one_lt_floor x
    have hb := Int.floor_le x
    constructor <;> linarith
  · have ha := Int.le_ceil x
    have hb := Int.ceil_lt_add_one x
    constructor <;> linarith

theorem filter_repeat_alpha (filter : LowPassFilter) (x : ℚ) (n : Nat) :
    (filter_repeat filter x n).alpha = filter.alpha := by
  induction n with
  | zero => rfl
  | succ k ih =>
    simp only [filter_repeat, filter_apply]
    exact ih

theorem filter_repeat_closed_form (filter : LowPassFilter) (x : ℚ) (n : Nat) :
    (filter_repeat filter x n).last_output - x
      = (1 - filter.alpha) ^ n * (filter.last_output - x) := by
  induction n with
  | zero => simp [filter_repeat]
  | succ k ih =>
    have ha := filter_repeat_alpha filter x k
    simp only [filter_repeat, filter_apply]
    rw [ha, pow_succ]
    have hk : (filter_repeat filter x k).last_output
        = x + (1 - filter.alpha) ^ k * (filter.last_output - x) := by
      linarith
    rw [hk]
    ring

theorem adc_to_voltage_eq (raw_value : Nat) :
    adc_to_voltage raw_value = (raw_value : ℚ) * (11 / 13650) := by
  unfold adc_to_voltage
  norm_num
  ring

theorem read_ADC_channel_in_range (raw_value : Nat) (h : raw_value ≤ 4095) :
    read_ADC_channel raw_value
      = some { raw_adc := raw_value
               voltage := adc_to_voltage raw_value
               temperature := trunc ((-40) + (adc_to_voltage raw_value / 3.3) * 125) } := by
  have hc : (raw_value : ℚ) ≤ 4095 := by exact_mod_cast h
  have h0 : (0 : ℚ) ≤ (raw_value : ℚ) := Nat.cast_nonneg raw_value
  have hv := adc_to_voltage_eq raw_value
  have hlo : (-129 : ℚ) < (-40) + (adc_to_voltage raw_value / 3.3) * 125 := by
    rw [hv]
    norm_num
    linarith
  have hhi : (-40) + (adc_to_voltage raw_value / 3.3) * 125 < (128 : ℚ) := by
    rw [hv]
    norm_num
    linarith
  have hf := float_to_int_8 _ hlo hhi
  unfold read_ADC_channel
  unfold adc_to_voltage at hf
  simp only [hf]
  rfl

/-! ## Device state classifier -/

/-- Claim C1: `update_device_state` sets `motor_state` by first-match priority,
for every battery level and signal strength (all naturals, hence all of 0..255),
any altitude and any previous state: error below 10 % battery, otherwise
blinking below 30 % battery, otherwise on when the signal exceeds 50, otherwise
off; with the four sample classifications of the specification. -/
theorem update_device_state_priority (b s : Nat) (alt : Int) (prev : DeviceState) :
    (b < 10 → (update_device_state ⟨b, alt, s, prev⟩).motor_state
        = DeviceState.STATE_ERROR) ∧
    (10 ≤ b → b < 30 → (update_device_state ⟨b, alt, s, prev⟩).motor_state
        = DeviceState.STATE_BLINKING) ∧
    (30 ≤ b → 50 < s → (update_device_state ⟨b, alt, s, prev⟩).motor_state
        = DeviceState.STATE_ON) ∧
    (30 ≤ b → s ≤ 50 → (update_device_state ⟨b, alt, s, prev⟩).motor_state
        = DeviceState.STATE_OFF) ∧
    (update_device_state ⟨5, alt, 90, prev⟩).motor_state = DeviceState.STATE_ERROR ∧
    (update_device_state ⟨25, alt, 90, prev⟩).motor_state = DeviceState.STATE_BLINKING ∧
    (update_device_state ⟨75, alt, 60, prev⟩).motor_state = DeviceState.STATE_ON ∧
    (update_device_state ⟨75, alt, 30, prev⟩).motor_state = DeviceState.STATE_OFF := by
  refine ⟨?_, ?_, ?_, ?_, ?_, ?_, ?_, ?_⟩
  · intro h
    simp [update_device_state, h]
  · intro h1 h2
    have h3 : ¬ b < 10 := by omega
    simp [update_device_state, h2, h3]
  · intro h1 h2
    have h3 : ¬ b < 10 := by omega
    have h4 : ¬ b < 30 := by omega
    simp [update_device_state, h2, h3, h4]
  · intro h1 h2
    have h3 : ¬ b < 10 := by omega
    have h4 : ¬ b < 30 := by omega
    have h5 : ¬ s > 50 := by omega
    simp [update_device_state, h3, h4, h5]
  · simp [update_device_state]
  · simp [update_device_state]
  · simp [update_device_state]
  · simp [update_device_state]

/-! ## Range validator -/

/-- Claim C2: `check_range` returns 0 exactly when `min ≤ value ≤ max`;
otherwise it returns -1 and reports one violation carrying exactly the label,
the value and the two bounds; in range it prints nothing. It is a total
function, so every call returns one of the two results. -/
theorem check_range_spec (value min max : Int) (name : String) :
    ((check_range value min max name).1 = 0 ↔ (min ≤ value ∧ value ≤ max)) ∧
    ((check_range value min max name).1 = 0 ∨ (check_range value min max name).1 = -1) ∧
    ((min ≤ value ∧ value ≤ max) → check_range value min max name = (0, [])) ∧
    (¬ (min ≤ value ∧ value ≤ max) →
      check_range value min max name = (-1, [Event.range_error name value min max])) := by
  unfold check_range
  by_cases h : value < min ∨ value > max
  · have h' : ¬ (min ≤ value ∧ value ≤ max) := by omega
    simp [h, h']
  · have h' : min ≤ value ∧ value ≤ max := by omega
    simp [h, h']

theorem validate_drone_state_eq (altitude : Int) (battery : Nat) (temp : ℚ) (t : Int)
    (ht : float_to_int 16 temp = some t) :
    validate_drone_state altitude battery temp =
      some (if (0 ≤ altitude ∧ altitude ≤ 500) ∧ battery ≤ 100 ∧ (-20 ≤ t ∧ t ≤ 60)
        then 0 else -1,
        (Event.validation_start :: (check_range altitude 0 500 "Altitude (m)").2
          ++ (check_range (battery : Int) 0 100 "Battery (%)").2
          ++ (check_range t (-20) 60 "Temperature (°C)").2)
          ++ [if (0 ≤ altitude ∧ altitude ≤ 500) ∧ battery ≤ 100 ∧ (-20 ≤ t ∧ t ≤ 60)
            then Event.validation_ok
            else Event.validation_errors
              ((if 0 ≤ altitude ∧ altitude ≤ 500 then 0 else 1)
                + (if battery ≤ 100 then 0 else 1)
                + (if -20 ≤ t ∧ t ≤ 60 then 0 else 1))]) := by
  unfold validate_drone_state
  rw [ht]
  by_cases h1 : 0 ≤ altitude ∧ altitude ≤ 500 <;>
  by_cases h2 : battery ≤ 100 <;>
  by_cases h3 : -20 ≤ t ∧ t ≤ 60
  all_goals
    have h1' : (altitude < 0 ∨ altitude > 500) ↔ ¬ (0 ≤ altitude ∧ altitude ≤ 500) := by omega
    have h2' : ((battery : Int) < 0 ∨ (battery : Int) > 100) ↔ ¬ battery ≤ 100 := by omega
    have h3' : (t < -20 ∨ t > 60) ↔ ¬ (-20 ≤ t ∧ t ≤ 60) := by omega
    simp only [check_range, h1', h2', h3']
    simp [h1, h2, h3]

/-- Claim C3, as stated, fails: with altitude 100, battery 75 and temperature
60.5 the function returns 0 and reports no violation, although the temperature
passed in exceeds its upper bound 60. -/
theorem validate_drone_state_accepts_60_5 :
    validate_drone_state 100 75 60.5
      = some (0, [Event.validation_start, Event.validation_ok]) ∧
    ¬ ((-20 : ℚ) ≤ 60.5 ∧ (60.5 : ℚ) ≤ 60) := by
  constructor
  · have ht : float_to_int 16 60.5 = some 60 := by
      rw [float_to_int_16 _ (by norm_num) (by norm_num)]
      rw [trunc_eq_of_nonneg 60.5 60 (by norm_num) (by norm_num) (by norm_num)]
    rw [validate_drone_state_eq 100 75 60.5 60 ht]
    simp [check_range]
  · norm_num

/-- Claim C3, amended: for every altitude, battery level and temperature whose
truncation toward zero fits 16 bits, `validate_drone_state` returns 0 or -1,
and returns 0 exactly when `0 ≤ altitude ≤ 500`, `battery ≤ 100` and the
temperature truncated toward zero lies in `-20..60`, that is when
`-21 < temp < 61`. With (100, 75, 25.5) it returns 0, and with (600, 120, -25)
it returns -1 and reports all three fields. -/
theorem validate_drone_state_spec (altitude : Int) (battery : Nat) (temp : ℚ)
    (hlo : -32769 < temp) (hhi : temp < 32768) :
    (∃ r, validate_drone_state altitude battery temp = some r ∧
      (r.1 = 0 ∨ r.1 = -1) ∧
      (r.1 = 0 ↔ (0 ≤ altitude ∧ altitude ≤ 500) ∧ (0 ≤ battery ∧ battery ≤ 100) ∧
        (-20 ≤ trunc temp ∧ trunc temp ≤ 60)) ∧
      (r.1 = 0 ↔ (0 ≤ altitude ∧ altitude ≤ 500) ∧ (0 ≤ battery ∧ battery ≤ 100) ∧
        (-21 < temp ∧ temp < 61))) ∧
    validate_drone_state 100 75 25.5
      = some (0, [Event.validation_start, Event.validation_ok]) ∧
    validate_drone_state 600 120 (-25)
      = some (-1, [Event.validation_start,
          Event.range_error "Altitude (m)" 600 0 500,
          Event.range_error "Battery (%)" 120 0 100,
          Event.range_error "Temperature (°C)" (-25) (-20) 60,
          Event.validation_errors 3]) := by
  refine ⟨?_, ?_, ?_⟩
  · have ht := float_to_int_16 temp hlo hhi
    have hlo' : -20 ≤ trunc temp ↔ -21 < temp := by
      rw [le_trunc_iff temp (-20) (by norm_num)]
      norm_num
    have hhi' : trunc temp ≤ 60 ↔ temp < 61 := by
      rw [trunc_le_iff temp 60 (by norm_num)]
      norm_num
    refine ⟨_, validate_drone_state_eq altitude battery temp (trunc temp) ht, ?_, ?_, ?_⟩
    · dsimp only
      split
      · exact Or.inl rfl
      · exact Or.inr rfl
    · dsimp only
      split
      · rename_i h
        simp only [true_iff]
        exact ⟨h.1, ⟨Nat.zero_le _, h.2.1⟩, h.2.2⟩
      · rename_i h
        constructor
        · intro h0
          norm_num at h0
        · intro h'
          exact absurd ⟨h'.1, h'.2.1.2, h'.2.2⟩ h
    · dsimp only
      rw [← hlo', ← hhi']
      split
      · rename_i h
        simp only [true_iff]
        exact ⟨h.1, ⟨Nat.zero_le _, h.2.1⟩, h.2.2⟩
      · rename_i h
        constructor
        · intro h0
          norm_num at h0
        · intro h'
          exact absurd ⟨h'.1, h'.2.1.2, h'.2.2⟩ h
  · have ht : float_to_int 16 25.5 = some 25 := by
      rw [float_to_int_16 _ (by norm_num) (by norm_num)]
      rw [trunc_eq_of_nonneg 25.5 25 (by norm_num) (by norm_num) (by norm_num)]
    rw [validate_drone_state_eq 100 75 25.5 25 ht]
    simp [check_range]
  · have ht : float_to_int 16 (-25) = some (-25) := by
      rw [float_to_int_16 _ (by norm_num) (by norm_num)]
      rw [trunc_eq_of_neg (-25) (-25) (by norm_num) (by norm_num) (by norm_num)]
    rw [validate_drone_state_eq 600 120 (-25) (-25) ht]
    simp [check_range]

/-- Claim C10: `update_device_state` leaves `battery_percent`, `altitude` and
`signal_strength` unchanged; the resulting `motor_state` is the same whatever
the altitude and the previous `motor_state` were; and a second call in a row
changes nothing. -/
theorem update_device_state_frame (t : DroneTelemetry) :
    (update_device_state t).battery_percent = t.battery_percent ∧
    (update_device_state t).altitude = t.altitude ∧
    (update_device_state t).signal_strength = t.signal_strength ∧
    (∀ (alt : Int) (prev : DeviceState),
      (update_device_state ⟨t.battery_percent, alt, t.signal_strength, prev⟩).motor_state
        = (update_device_state t).motor_state) ∧
    update_device_state (update_device_state t) = update_device_state t := by
  unfold update_device_state
  by_cases h1 : t.battery_percent < 10
  · simp [h1]
  · by_cases h2 : t.battery_percent < 30
    · simp [h1, h2]
    · by_cases h3 : t.signal_strength > 50
      · simp [h1, h2, h3]
      · simp [h1, h2, h3]

/-- A witness of `validate_drone_state_spec`: altitude 100, battery 75 and
temperature 60.5. -/
theorem validate_drone_state_spec_witness :
    ((-32769 : ℚ) < 60.5 ∧ (60.5 : ℚ) < 32768) ∧
    ((∃ r, validate_drone_state 100 75 60.5 = some r ∧
      (r.1 = 0 ∨ r.1 = -1) ∧
      (r.1 = 0 ↔ ((0 : Int) ≤ 100 ∧ (100 : Int) ≤ 500) ∧ (0 ≤ 75 ∧ 75 ≤ 100) ∧
        (-20 ≤ trunc 60.5 ∧ trunc 60.5 ≤ 60)) ∧
      (r.1 = 0 ↔ ((0 : Int) ≤ 100 ∧ (100 : Int) ≤ 500) ∧ (0 ≤ 75 ∧ 75 ≤ 100) ∧
        ((-21 : ℚ) < 60.5 ∧ (60.5 : ℚ) < 61))) ∧
    validate_drone_state 100 75 25.5
      = some (0, [Event.validation_start, Event.validation_ok]) ∧
    validate_drone_state 600 120 (-25)
      = some (-1, [Event.validation_start,
          Event.range_error "Altitude (m)" 600 0 500,
          Event.range_error "Battery (%)" 120 0 100,
          Event.range_error "Temperature (°C)" (-25) (-20) 60,
          Event.validation_errors 3])) :=
  ⟨⟨by norm_num, by norm_num⟩,
    validate_drone_state_spec 100 75 60.5 (by norm_num) (by norm_num)⟩

/-! ## Unit converter -/

/-- Claim C6: for raw samples `raw1 ≤ raw2 ≤ 4095`, the voltage of `raw1`
computed by `adc_to_voltage`, which is also the `voltage` field computed by
`read_ADC_channel`, equals `raw1 / 4095 * 3.3` and lies in `[0, 3.3]`; the
conversion is non-decreasing (`adc_to_voltage raw1 ≤ adc_to_voltage raw2`);
0 maps to 0 and 4095 maps to 3.3. -/
theorem adc_to_voltage_range_monotone (raw1 raw2 : Nat)
    (h12 : raw1 ≤ raw2) (h2 : raw2 ≤ 4095) :
    adc_to_voltage raw1 = (raw1 : ℚ) / 4095 * 3.3 ∧
    (∃ r, read_ADC_channel raw1 = some r ∧ r.voltage = (raw1 : ℚ) / 4095 * 3.3) ∧
    (0 ≤ adc_to_voltage raw1 ∧ adc_to_voltage raw1 ≤ 3.3) ∧
    adc_to_voltage raw1 ≤ adc_to_voltage raw2 ∧
    adc_to_voltage 0 = 0 ∧
    adc_to_voltage 4095 = 3.3 := by
  have hc12 : (raw1 : ℚ) ≤ (raw2 : ℚ) := by exact_mod_cast h12
  have hc2 : (raw2 : ℚ) ≤ 4095 := by exact_mod_cast h2
  have h0 : (0 : ℚ) ≤ (raw1 : ℚ) := Nat.cast_nonneg raw1
  have hform : adc_to_voltage raw1 = (raw1 : ℚ) / 4095 * 3.3 := by
    unfold adc_to_voltage
    norm_num
  refine ⟨hform, ?_, ⟨?_, ?_⟩, ?_, ?_, ?_⟩
  · refine ⟨_, read_ADC_channel_in_range raw1 (le_trans h12 h2), ?_⟩
    exact hform
  · rw [adc_to_voltage_eq]
    linarith
  · rw [adc_to_voltage_eq]
    norm_num
    linarith
  · rw [adc_to_voltage_eq, adc_to_voltage_eq]
    linarith
  · norm_num [adc_to_voltage]
  · norm_num [adc_to_voltage]

/-- A witness of `adc_to_voltage_range_monotone`: the raw samples 1024 and
2048. -/
theorem adc_to_voltage_range_monotone_witness :
    (1024 ≤ 2048 ∧ 2048 ≤ 4095) ∧
    (adc_to_voltage 1024 = ((1024 : Nat) : ℚ) / 4095 * 3.3 ∧
    (∃ r, read_ADC_channel 1024 = some r ∧ r.voltage = ((1024 : Nat) : ℚ) / 4095 * 3.3) ∧
    (0 ≤ adc_to_voltage 1024 ∧ adc_to_voltage 1024 ≤ 3.3) ∧
    adc_to_voltage 1024 ≤ adc_to_voltage 2048 ∧
    adc_to_voltage 0 = 0 ∧
    adc_to_voltage 4095 = 3.3) :=
  ⟨⟨by decide, by decide⟩, adc_to_voltage_range_monotone 1024 2048 (by decide) (by decide)⟩

/-- Claim C7, as stated, fails: the voltages 0.50390625 and 0.5 both give
temperature 0, so the difference of the results is 0, while 100 times the
difference of the voltages is 0.390625. -/
theorem voltage_to_temperature_not_affine :
    voltage_to_temperature 0.50390625 = some 0 ∧
    voltage_to_temperature 0.5 = some 0 ∧
    (((0 : Int) : ℚ) - ((0 : Int) : ℚ) ≠ 100 * (0.50390625 - 0.5)) := by
  refine ⟨?_, ?_, ?_⟩
  · unfold voltage_to_temperature
    rw [float_to_int_16 _ (by norm_num) (by norm_num)]
    rw [trunc_eq_of_nonneg _ 0 (by norm_num) (by norm_num) (by norm_num)]
  · unfold voltage_to_temperature
    rw [float_to_int_16 _ (by norm_num) (by norm_num)]
    rw [trunc_eq_of_nonneg _ 0 (by norm_num) (by norm_num) (by norm_num)]
  · norm_num

/-- Claim C7, amended, in exact arithmetic (the subtraction and the
multiplication taken without rounding to `double`): for voltages whose
temperature fits 16 bits, `voltage_to_temperature` returns
`(voltage - 0.5) * 100` truncated toward zero. The value before truncation is
affine with scale 100; the returned integers satisfy
`voltage_to_temperature v1 - voltage_to_temperature v2 = 100 * (v1 - v2)`
up to an error smaller than 2, and exactly when both values before truncation
are integers. -/
theorem voltage_to_temperature_near_affine (v1 v2 : ℚ)
    (h1lo : -32769 < (v1 - 0.5) * 100) (h1hi : (v1 - 0.5) * 100 < 32768)
    (h2lo : -32769 < (v2 - 0.5) * 100) (h2hi : (v2 - 0.5) * 100 < 32768) :
    ∃ t1 t2 : Int,
      voltage_to_temperature v1 = some t1 ∧ voltage_to_temperature v2 = some t2 ∧
      t1 = trunc ((v1 - 0.5) * 100) ∧ t2 = trunc ((v2 - 0.5) * 100) ∧
      (v1 - 0.5) * 100 - (v2 - 0.5) * 100 = 100 * (v1 - v2) ∧
      |((t1 : ℚ) - (t2 : ℚ)) - 100 * (v1 - v2)| < 2 ∧
      ((∃ n1 n2 : Int, (v1 - 0.5) * 100 = n1 ∧ (v2 - 0.5) * 100 = n2) →
        (t1 : ℚ) - (t2 : ℚ) = 100 * (v1 - v2)) := by
  refine ⟨trunc ((v1 - 0.5) * 100), trunc ((v2 - 0.5) * 100), ?_, ?_, rfl, rfl, ?_, ?_, ?_⟩
  · exact float_to_int_16 _ h1lo h1hi
  · exact float_to_int_16 _ h2lo h2hi
  · ring
  · have e1 := abs_lt.mp (abs_trunc_sub_lt_one ((v1 - 0.5) * 100))
    have e2 := abs_lt.mp (abs_trunc_sub_lt_one ((v2 - 0.5) * 100))
    rw [abs_lt]
    constructor <;> linarith [e1.1, e1.2, e2.1, e2.2]
  · rintro ⟨n1, n2, hn1, hn2⟩
    rw [hn1, hn2, trunc_intCast, trunc_intCast, ← hn1, ← hn2]
    ring

/-- A witness of `voltage_to_temperature_near_affine`: the voltages 1.5
and 0.5. -/
theorem voltage_to_temperature_near_affine_witness :
    (((-32769 : ℚ) < (1.5 - 0.5) * 100 ∧ ((1.5 : ℚ) - 0.5) * 100 < 32768) ∧
      ((-32769 : ℚ) < (0.5 - 0.5) * 100 ∧ ((0.5 : ℚ) - 0.5) * 100 < 32768)) ∧
    ∃ t1 t2 : Int,
      voltage_to_temperature 1.5 = some t1 ∧ voltage_to_temperature 0.5 = some t2 ∧
      t1 = trunc ((1.5 - 0.5) * 100) ∧ t2 = trunc ((0.5 - 0.5) * 100) ∧
      ((1.5 : ℚ) - 0.5) * 100 - (0.5 - 0.5) * 100 = 100 * (1.5 - 0.5) ∧
      |((t1 : ℚ) - (t2 : ℚ)) - 100 * (1.5 - 0.5)| < 2 ∧
      ((∃ n1 n2 : Int, ((1.5 : ℚ) - 0.5) * 100 = n1 ∧ ((0.5 : ℚ) - 0.5) * 100 = n2) →
        (t1 : ℚ) - (t2 : ℚ) = 100 * (1.5 - 0.5)) :=
  ⟨⟨⟨by norm_num, by norm_num⟩, ⟨by norm_num, by norm_num⟩⟩,
    voltage_to_temperature_near_affine 1.5 0.5
      (by norm_num) (by norm_num) (by norm_num) (by norm_num)⟩

/-- Claim C8, as stated, fails: `adc_to_voltage 2048` rounded to four decimal
places is 1.6504, not 1.6487, and `voltage_to_temperature` of that voltage is
115, which is neither 114.87 when rounded to two decimal places nor equal to
the value `(2048 / 4095 * 3.3 - 0.5) * 100` of the linear formula. -/
theorem pipeline_2048_not_as_stated :
    round_decimals 4 (adc_to_voltage 2048) ≠ 1.6487 ∧
    voltage_to_temperature (adc_to_voltage 2048) = some 115 ∧
    round_decimals 2 ((115 : Int) : ℚ) ≠ 114.87 ∧
    (((115 : Int) : ℚ) ≠ ((2048 : ℚ) / 4095 * 3.3 - 0.5) * 100) := by
  refine ⟨?_, ?_, ?_, ?_⟩
  · norm_num [round_decimals, adc_to_voltage, round_eq, Int.floor_eq_iff]
  · unfold voltage_to_temperature
    rw [float_to_int_16 _ (by norm_num [adc_to_voltage]) (by norm_num [adc_to_voltage])]
    rw [trunc_eq_of_nonneg _ 115 (by norm_num [adc_to_voltage])
      (by norm_num [adc_to_voltage]) (by norm_num [adc_to_voltage])]
  · norm_num [round_decimals, round_eq, Int.floor_eq_iff]
  · norm_num

/-- Claim C8, amended: `adc_to_voltage 2048` equals 1.6504 when rounded to four
decimal places, and `voltage_to_temperature` of that voltage is 115, which is
the value `(2048 / 4095 * 3.3 - 0.5) * 100` of the linear formula (115.04 when
rounded to two decimal places) truncated toward zero. Both facts hold of the
exact voltage `2048 / 4095 * 3.3` and of 13844583/8388608, the single precision
value nearest to it, which is what the function returns as a `float`. -/
theorem pipeline_2048 :
    round_decimals 4 (adc_to_voltage 2048) = 1.6504 ∧
    voltage_to_temperature (adc_to_voltage 2048) = some 115 ∧
    round_decimals 4 (13844583 / 8388608) = 1.6504 ∧
    voltage_to_temperature (13844583 / 8388608) = some 115 ∧
    |(13844583 / 8388608 : ℚ) - adc_to_voltage 2048| ≤ 1 / 2 ^ 24 ∧
    trunc (((2048 : ℚ) / 4095 * 3.3 - 0.5) * 100) = 115 ∧
    round_decimals 2 (((2048 : ℚ) / 4095 * 3.3 - 0.5) * 100) = 115.04 := by
  refine ⟨?_, ?_, ?_, ?_, ?_, ?_, ?_⟩
  · norm_num [round_decimals, adc_to_voltage, round_eq, Int.floor_eq_iff]
  · unfold voltage_to_temperature
    rw [float_to_int_16 _ (by norm_num [adc_to_voltage]) (by norm_num [adc_to_voltage])]
    rw [trunc_eq_of_nonneg _ 115 (by norm_num [adc_to_voltage])
      (by norm_num [adc_to_voltage]) (by norm_num [adc_to_voltage])]
  · norm_num [round_decimals, round_eq, Int.floor_eq_iff]
  · unfold voltage_to_temperature
    rw [float_to_int_16 _ (by norm_num) (by norm_num)]
    rw [trunc_eq_of_nonneg _ 115 (by norm_num) (by norm_num) (by norm_num)]
  · rw [abs_le]
    constructor <;> norm_num [adc_to_voltage]
  · exact trunc_eq_of_nonneg _ 115 (by norm_num) (by norm_num) (by norm_num)
  · norm_num [round_decimals, round_eq, Int.floor_eq_iff]

/-! ## Low-pass filter -/

/-- Claim C4: `filter_apply` computes `alpha * input + (1 - alpha) * last_output`
from the filter as it was before the call, stores it into `last_output`,
returns exactly the stored value and leaves `alpha` unchanged. -/
theorem filter_apply_spec (filter : LowPassFilter) (input : ℚ) :
    (filter_apply filter input).1.last_output
      = filter.alpha * input + (1 - filter.alpha) * filter.last_output ∧
    (filter_apply filter input).2 = (filter_apply filter input).1.last_output ∧
    (filter_apply filter input).1.alpha = filter.alpha := by
  norm_num [filter_apply]

/-- Claim C5: for `0 < alpha ≤ 1`, after `N` calls of `filter_apply` with the
same input `x` the distance of `last_output` to `x` is
`(1 - alpha)^N * (y0 - x)`, so `last_output` converges to `x` as `N` tends to
infinity; and for `alpha = 1` the first output is `x`. -/
theorem filter_repeat_converges (filter : LowPassFilter) (x : ℚ)
    (h0 : 0 < filter.alpha) (h1 : filter.alpha ≤ 1) :
    (∀ N : Nat, (filter_repeat filter x N).last_output - x
      = (1 - filter.alpha) ^ N * (filter.last_output - x)) ∧
    Filter.Tendsto (fun N : Nat => (((filter_repeat filter x N).last_output : ℚ) : ℝ))
      Filter.atTop (nhds (x : ℝ)) ∧
    (filter.alpha = 1 → (filter_apply filter x).2 = x) := by
  refine ⟨filter_repeat_closed_form filter x, ?_, ?_⟩
  · have hform : ∀ N : Nat, (((filter_repeat filter x N).last_output : ℚ) : ℝ)
        = (x : ℝ) + (1 - (filter.alpha : ℝ)) ^ N * ((filter.last_output : ℝ) - x) := by
      intro N
      have h := filter_repeat_closed_form filter x N
      have h' : (filter_repeat filter x N).last_output
          = x + (1 - filter.alpha) ^ N * (filter.last_output - x) := by
        linarith
      rw [h']
      push_cast
      ring
    have hr0 : (0 : ℝ) ≤ 1 - (filter.alpha : ℝ) := by
      have : (filter.alpha : ℝ) ≤ 1 := by exact_mod_cast h1
      linarith
    have hr1 : 1 - (filter.alpha : ℝ) < 1 := by
      have : (0 : ℝ) < (filter.alpha : ℝ) := by exact_mod_cast h0
      linarith
    have hpow := tendsto_pow_atTop_nhds_zero_of_lt_one hr0 hr1
    have hmul := (hpow.mul_const ((filter.last_output : ℝ) - x)).const_add (x : ℝ)
    simp only [zero_mul, add_zero] at hmul
    exact hmul.congr (fun N => (hform N).symm)
  · intro ha
    norm_num [filter_apply, ha]

/-- A witness of `filter_repeat_converges`: the filter of `main`, `alpha = 0.3`
starting from 0, fed the constant input 25. -/
theorem filter_repeat_converges_witness :
    ((0 : ℚ) < (filter_init 0.3).alpha ∧ (filter_init 0.3).alpha ≤ 1) ∧
    ((∀ N : Nat, (filter_repeat (filter_init 0.3) 25 N).last_output - 25
      = (1 - (filter_init 0.3).alpha) ^ N * ((filter_init 0.3).last_output - 25)) ∧
    Filter.Tendsto
      (fun N : Nat => (((filter_repeat (filter_init 0.3) 25 N).last_output : ℚ) : ℝ))
      Filter.atTop (nhds ((25 : ℚ) : ℝ)) ∧
    ((filter_init 0.3).alpha = 1 → (filter_apply (filter_init 0.3) 25).2 = 25)) :=
  ⟨⟨by norm_num [filter_init], by norm_num [filter_init]⟩,
    filter_repeat_converges (filter_init 0.3) 25
      (by norm_num [filter_init]) (by norm_num [filter_init])⟩

/-- Claim C9: `filter_init` stores `alpha` and sets `last_output` to 0, and the
filter initialised with `alpha = 0.3` and fed the readings
25, 28, 26, 24, 27, 25, 26 returns a fixed sequence of seven values whose
first two are 7.5 and 13.65. -/
theorem filter_init_run_noisy_readings :
    (∀ alpha : ℚ, (filter_init alpha).alpha = alpha ∧ (filter_init alpha).last_output = 0) ∧
    noisy_readings = [25, 28, 26, 24, 27, 25, 26] ∧
    (filter_run (filter_init 0.3) noisy_readings).2
      = [7.5, 13.65, 3471 / 200, 38697 / 2000, 432879 / 20000, 4530153 / 200000,
          47311071 / 2000000] := by
  refine ⟨?_, rfl, ?_⟩
  · intro alpha
    norm_num [filter_init]
  · norm_num [filter_run, filter_init, filter_apply, noisy_readings]

/-! ## Motor ramp -/

theorem motor_ramp_loop_finishes (target_speed ramp_steps : Nat)
    (ht : target_speed ≤ 255) (h1 : 1 ≤ ramp_steps) (h2 : ramp_steps ≤ 254) :
    ∀ (k i fuel : Nat) (out : List MotorEvent), i + k = ramp_steps + 1 → k + 1 ≤ fuel →
      motor_ramp_loop target_speed ramp_steps fuel i out
        = RampResult.finished
            (out ++ (List.range' i k).map
              (fun j => MotorEvent.speed (target_speed * j / ramp_steps))) := by
  intro k
  induction k with
  | zero =>
    intro i fuel out hik hfuel
    obtain ⟨f, rfl⟩ : ∃ f, fuel = f + 1 := ⟨fuel - 1, by omega⟩
    have hi : ¬ i ≤ ramp_steps := by omega
    simp [motor_ramp_loop, hi]
  | succ k ih =>
    intro i fuel out hik hfuel
    obtain ⟨f, rfl⟩ : ∃ f, fuel = f + 1 := ⟨fuel - 1, by omega⟩
    have hi : i ≤ ramp_steps := by omega
    have hrs : ramp_steps ≠ 0 := by omega
    have hq : target_speed * i / ramp_steps ≤ target_speed := by
      apply Nat.div_le_of_le_mul
      rw [Nat.mul_comm ramp_steps target_speed]
      exact Nat.mul_le_mul_left _ hi
    have hmod : target_speed * i / ramp_steps % 256 = target_speed * i / ramp_steps :=
      Nat.mod_eq_of_lt (by omega)
    have hnext : (i + 1) % 256 = i + 1 := Nat.mod_eq_of_lt (by omega)
    rw [motor_ramp_loop, if_pos hi, if_neg hrs]
    simp only [hmod, hnext]
    rw [ih (i + 1) f _ (by omega) (by omega)]
    simp [List.range'_succ]

theorem motor_ramp_loop_never_ends (target_speed : Nat) :
    ∀ (fuel i : Nat) (out : List MotorEvent), i ≤ 255 →
      motor_ramp_loop target_speed 255 fuel i out = RampResult.out_of_fuel := by
  intro fuel
  induction fuel with
  | zero =>
    intro i out _
    rfl
  | succ f ih =>
    intro i out hi
    rw [motor_ramp_loop, if_pos hi, if_neg (by decide)]
    exact ih _ _ (by omega)

theorem ramp_speeds_getElem (target_speed ramp_steps i : Nat) (hi : i ≤ ramp_steps) :
    ((List.range (ramp_steps + 1)).map (fun j => target_speed * j / ramp_steps))[i]?
      = some (target_speed * i / ramp_steps) := by
  rw [List.getElem?_map, List.getElem?_range (by omega)]
  rfl

theorem ramp_speeds_pairwise (target_speed ramp_steps : Nat) :
    List.Pairwise (fun a b => a ≤ b)
      ((List.range (ramp_steps + 1)).map (fun j => target_speed * j / ramp_steps)) := by
  rw [List.pairwise_map]
  exact (List.pairwise_le_range _).imp
    (fun h => Nat.div_le_div_right (Nat.mul_le_mul_left _ h))

/-- Claim C12: for `target_speed ≤ 255` and `1 ≤ ramp_steps ≤ 254`,
`motor_ramp_speed` returns (given fuel for its `ramp_steps + 2` evaluations of
the loop condition) without dividing by zero, having printed the heading,
exactly `ramp_steps + 1` speeds and the line break; the `i`-th speed is
`target_speed * i / ramp_steps` rounded down, which is at most 255, so not
wrapped; the speeds are non-decreasing, the first is 0 and the last is
`target_speed`; target 100 in 5 steps gives 0, 20, 40, 60, 80, 100. Outside the
bounds the call is not safe: with `ramp_steps = 0` it divides by zero, and with
`ramp_steps = 255` the loop never ends. -/
theorem motor_ramp_speed_spec (motor_id target_speed ramp_steps fuel : Nat)
    (ht : target_speed ≤ 255) (h1 : 1 ≤ ramp_steps) (h2 : ramp_steps ≤ 254)
    (hf : ramp_steps + 2 ≤ fuel) :
    (∃ speeds : List Nat,
      motor_ramp_speed motor_id target_speed ramp_steps fuel
        = RampResult.finished
            (MotorEvent.ramp_header motor_id target_speed ramp_steps
              :: (speeds.map MotorEvent.speed ++ [MotorEvent.newline])) ∧
      speeds.length = ramp_steps + 1 ∧
      (∀ i, i ≤ ramp_steps → speeds[i]? = some (target_speed * i / ramp_steps)) ∧
      (∀ i, i ≤ ramp_steps → target_speed * i / ramp_steps ≤ 255) ∧
      List.Pairwise (fun a b => a ≤ b) speeds ∧
      speeds.head? = some 0 ∧
      speeds.getLast? = some target_speed) ∧
    motor_ramp_speed motor_id 100 5 7
      = RampResult.finished
          [MotorEvent.ramp_header motor_id 100 5, MotorEvent.speed 0, MotorEvent.speed 20,
            MotorEvent.speed 40, MotorEvent.speed 60, MotorEvent.speed 80,
            MotorEvent.speed 100, MotorEvent.newline] ∧
    (∀ t f : Nat, motor_ramp_speed motor_id t 0 (f + 1) = RampResult.division_by_zero) ∧
    (∀ t f : Nat, motor_ramp_speed motor_id t 255 f = RampResult.out_of_fuel) := by
  refine ⟨⟨(List.range (ramp_steps + 1)).map (fun j => target_speed * j / ramp_steps),
    ?_, ?_, ?_, ?_, ?_, ?_, ?_⟩, ?_, ?_, ?_⟩
  · unfold motor_ramp_speed
    rw [motor_ramp_loop_finishes target_speed ramp_steps ht h1 h2 (ramp_steps + 1) 0 fuel _
      (by omega) (by omega)]
    simp [List.range_eq_range']
  · simp
  · intro i hi
    exact ramp_speeds_getElem target_speed ramp_steps i hi
  · intro i hi
    have hq : target_speed * i / ramp_steps ≤ target_speed := by
      apply Nat.div_le_of_le_mul
      rw [Nat.mul_comm ramp_steps target_speed]
      exact Nat.mul_le_mul_left _ hi
    omega
  · exact ramp_speeds_pairwise target_speed ramp_steps
  · simp [List.range_succ_eq_map]
  · have hpos : 0 < ramp_steps := by omega
    simp [List.range_succ, Nat.mul_div_cancel _ hpos]
  · rfl
  · intro t f
    simp [motor_ramp_speed, motor_ramp_loop]
  · intro t f
    unfold motor_ramp_speed
    rw [motor_ramp_loop_never_ends t f 0 _ (by omega)]

/-- A witness of `motor_ramp_speed_spec`: the call `motor_ramp_speed(0, 100, 5)`
of `main`, with fuel 7. -/
theorem motor_ramp_speed_spec_witness :
    (100 ≤ 255 ∧ 1 ≤ 5 ∧ 5 ≤ 254 ∧ 5 + 2 ≤ 7) ∧
    ((∃ speeds : List Nat,
      motor_ramp_speed 0 100 5 7
        = RampResult.finished
            (MotorEvent.ramp_header 0 100 5
              :: (speeds.map MotorEvent.speed ++ [MotorEvent.newline])) ∧
      speeds.length = 5 + 1 ∧
      (∀ i, i ≤ 5 → speeds[i]? = some (100 * i / 5)) ∧
      (∀ i, i ≤ 5 → 100 * i / 5 ≤ 255) ∧
      List.Pairwise (fun a b => a ≤ b) speeds ∧
      speeds.head? = some 0 ∧
      speeds.getLast? = some 100) ∧
    motor_ramp_speed 0 100 5 7
      = RampResult.finished
          [MotorEvent.ramp_header 0 100 5, MotorEvent.speed 0, MotorEvent.speed 20,
            MotorEvent.speed 40, MotorEvent.speed 60, MotorEvent.speed 80,
            MotorEvent.speed 100, MotorEvent.newline] ∧
    (∀ t f : Nat, motor_ramp_speed 0 t 0 (f + 1) = RampResult.division_by_zero) ∧
    (∀ t f : Nat, motor_ramp_speed 0 t 255 f = RampResult.out_of_fuel)) :=
  ⟨⟨by decide, by decide, by decide, by decide⟩,
    motor_ramp_speed_spec 0 100 5 7 (by decide) (by decide) (by decide) (by decide)⟩

/-! ## Calibration points of the temperature conversion -/

/-- Claim C11 does not hold of the code: at the three voltages named in the
comment of `voltage_to_temperature` (0.5 V, 1.5 V, 2.5 V) the function returns
0, 100 and 200, not the -40, 25 and 85 that the comment gives. -/
theorem voltage_to_temperature_calibration_points :
    voltage_to_temperature 0.5 = some 0 ∧
    voltage_to_temperature 1.5 = some 100 ∧
    voltage_to_temperature 2.5 = some 200 ∧
    voltage_to_temperature 0.5 ≠ some (-40) ∧
    voltage_to_temperature 1.5 ≠ some 25 ∧
    voltage_to_temperature 2.5 ≠ some 85 := by
  have ha : voltage_to_temperature 0.5 = some 0 := by
    unfold voltage_to_temperature
    rw [float_to_int_16 _ (by norm_num) (by norm_num)]
    rw [trunc_eq_of_nonneg _ 0 (by norm_num) (by norm_num) (by norm_num)]
  have hb : voltage_to_temperature 1.5 = some 100 := by
    unfold voltage_to_temperature
    rw [float_to_int_16 _ (by norm_num) (by norm_num)]
    rw [trunc_eq_of_nonneg _ 100 (by norm_num) (by norm_num) (by norm_num)]
  have hc : voltage_to_temperature 2.5 = some 200 := by
    unfold voltage_to_temperature
    rw [float_to_int_16 _ (by norm_num) (by norm_num)]
    rw [trunc_eq_of_nonneg _ 200 (by norm_num) (by norm_num) (by norm_num)]
  refine ⟨ha, hb, hc, ?_, ?_, ?_⟩
  · rw [ha]
    decide
  · rw [hb]
    decide
  · rw [hc]
    decide

end Embedded
